import Mathlib

/-!
Verification of the publication-fetcher pipeline (app.py and its copy in
part_000).

The Python sources are shallowly embedded: JSON payloads become an inductive
Json type, the fetching functions become pure functions of an injected
perform result (the outcome of the underlying network call), the
flask-caching memoization becomes explicit threading of an association-list
cache, and Python exceptions become an Except PyErr result.
-/

set_option maxRecDepth 8192

namespace PubFetch

/-- JSON values as produced by response.json(); numbers are modelled as
integers (no claim depends on float formatting). -/
inductive Json where
  | null
  | bool (b : Bool)
  | num (n : Int)
  | str (s : String)
  | arr (xs : List Json)
  | obj (kvs : List (String × Json))

/-- Python exceptions that the embedded code can raise. -/
inductive PyErr where
  | keyError
  | indexError
  | typeError
  | attributeError
  deriving DecidableEq, Repr

/-- First-match lookup in an association list keyed by strings (Python dict
lookup; also the flask-caching store, keyed by the memoized argument). -/
def lookupKey {α : Type} : List (String × α) → String → Option α
  | [], _ => none
  | (k1, v) :: rest, key => if k1 = key then some v else lookupKey rest key

/-- Python d[k] subscription: looks the key up in a dict, raising KeyError
when absent and TypeError when the value is not a dict. -/
def dictGetItem (j : Json) (k : String) : Except PyErr Json :=
  match j with
  | .obj kvs =>
    match lookupKey kvs k with
    | some v => .ok v
    | none => .error .keyError
  | _ => .error .typeError

/-- Python d.get(k): none when the key is absent; AttributeError when the
receiver is not a dict. -/
def dictGet (j : Json) (k : String) : Except PyErr (Option Json) :=
  match j with
  | .obj kvs => .ok (lookupKey kvs k)
  | _ => .error .attributeError

/-- Python x[0] on a JSON value: first element of a non-empty list, first
character of a non-empty string, IndexError when empty, TypeError otherwise. -/
def pyIndex0 : Json → Except PyErr Json
  | .arr (x :: _) => .ok x
  | .arr [] => .error .indexError
  | .str s =>
    match s.data with
    | [] => .error .indexError
    | c :: _ => .ok (.str ⟨[c]⟩)
  | _ => .error .typeError

/-- Iterating a JSON value as a Python list. Iteration over dicts and
strings is not modelled (no payload in this development iterates them);
those cases raise TypeError. -/
def asList : Json → Except PyErr (List Json)
  | .arr xs => .ok xs
  | _ => .error .typeError

/-- Python membership test k in j for a string key: key containment for
dicts, element membership for lists, TypeError for scalars (faithful for
numbers and None; the substring test on strings is not modelled because no
payload here reaches it). -/
def pyContains (k : String) : Json → Except PyErr Bool
  | .obj kvs => .ok (lookupKey kvs k).isSome
  | .arr xs => .ok (xs.any fun j => match j with | .str s => s = k | _ => false)
  | _ => .error .typeError

/-- Python str() / f-string conversion of the scalar JSON values. The
renderings of lists and dicts are not modelled (every value formatted by the
embedded code is a scalar). -/
def pyStr : Json → String
  | .null => "None"
  | .bool true => "True"
  | .bool false => "False"
  | .num n => toString n
  | .str s => s
  | .arr _ => ""
  | .obj _ => ""

/-- Python sep.join(xs): concatenates string elements, TypeError when an
element is not a string. -/
def pyJoinStrs (sep : String) (xs : List Json) : Except PyErr String :=
  (xs.mapM asStr).map (String.intercalate sep)
where
  asStr : Json → Except PyErr String
    | .str s => .ok s
    | _ => .error .typeError

/-- Python j == s for a string literal s: true exactly on the equal string;
false (never an exception) on any other value. -/
def jsonEqStr (j : Json) (s : String) : Bool :=
  match j with
  | .str t => t = s
  | _ => false

/-- The outcome of requests.get(url) + raise_for_status + response.json():
either the parsed JSON payload or a requests.RequestException whose str()
is the carried message. -/
def PerformResult := Except String Json

/-- The inner loop of the DOI comprehension in fetch_orcid_publications:
for each external_id, keep external_id['external-id-value'] when
external_id['external-id-type'] == 'doi' (the value subscript is evaluated
only after the type test succeeds, as in the comprehension). -/
def extractEidValues : List Json → Except PyErr (List String)
  | [] => .ok []
  | eid :: rest => do
    let t ← dictGetItem eid "external-id-type"
    if jsonEqStr t "doi" then
      let v ← dictGetItem eid "external-id-value"
      let others ← extractEidValues rest
      pure (pyStr v :: others)
    else
      extractEidValues rest

/-- work['work-summary'][0]['external-ids']['external-id'] filtered to the
doi-typed identifier values, for a single work group entry. -/
def workDois (work : Json) : Except PyErr (List String) := do
  let ws ← dictGetItem work "work-summary"
  let s0 ← pyIndex0 ws
  let eids ← dictGetItem s0 "external-ids"
  let eidArr ← dictGetItem eids "external-id"
  let l ← asList eidArr
  extractEidValues l

/-- The full DOI comprehension of fetch_orcid_publications, one work group
entry at a time, in upstream order. -/
def extractDoisFromWorks : List Json → Except PyErr (List String)
  | [] => .ok []
  | w :: rest => do
    let xs ← workDois w
    let ys ← extractDoisFromWorks rest
    pure (xs ++ ys)

/-- response.json().get('group', []) followed by the DOI comprehension. -/
def extractDois (j : Json) : Except PyErr (List String) := do
  let works := (← dictGet j "group").getD (.arr [])
  let wl ← asList works
  extractDoisFromWorks wl

/-- app.py fetch_orcid_publications (the body under the memoize decorator,
as a function of the network call's outcome): on a RequestException it
prints and returns []; on success it extracts the doi-typed identifier
values; a malformed payload raises (only RequestException is caught). -/
def fetch_orcid_publications (perform : PerformResult) : Except PyErr (List String) :=
  match perform with
  | .error _ => .ok []
  | .ok j => extractDois j

/-- part_000 fetch_orcid_publications (the app copy variant): returns the
pair (dois, None) on success and ([], str(e)) on a RequestException. -/
def fetch_orcid_publications_copy (perform : PerformResult) :
    Except PyErr (List String × Option String) :=
  match perform with
  | .error e => .ok ([], some e)
  | .ok j => (extractDois j).map fun dois => (dois, none)

/-- app.py fetch_crossref_metadata body: response.json().get('message', {})
on success, {} on a RequestException. -/
def fetch_crossref_metadata (perform : PerformResult) : Except PyErr Json :=
  match perform with
  | .error _ => .ok (.obj [])
  | .ok j => (dictGet j "message").map fun o => o.getD (.obj [])

/-- app.py fetch_altmetric_data body: the parsed JSON on success, {} on a
RequestException. -/
def fetch_altmetric_data (perform : PerformResult) : Except PyErr Json :=
  match perform with
  | .error _ => .ok (.obj [])
  | .ok j => .ok j

/-! ## Structured ORCID works payloads

Concrete well-formed upstream payloads, with an encoder into the raw Json
the code consumes, used to state what discovery extracts. -/

/-- One tagged external identifier of a work summary. -/
structure ExternalId where
  idType : String
  idValue : String
  deriving DecidableEq, Repr

/-- One work summary: its list of tagged external identifiers. -/
structure WorkSummary where
  externalIds : List ExternalId
  deriving DecidableEq, Repr

/-- One work group entry: its list of work summaries. -/
structure Work where
  workSummary : List WorkSummary
  deriving DecidableEq, Repr

def encodeExternalId (e : ExternalId) : Json :=
  .obj [("external-id-type", .str e.idType), ("external-id-value", .str e.idValue)]

def encodeSummary (s : WorkSummary) : Json :=
  .obj [("external-ids", .obj [("external-id", .arr (s.externalIds.map encodeExternalId))])]

def encodeWork (w : Work) : Json :=
  .obj [("work-summary", .arr (w.workSummary.map encodeSummary))]

def encodeWorks (ws : List Work) : Json :=
  .obj [("group", .arr (ws.map encodeWork))]

/-- The doi-typed identifier values of the first work summary of a work
group entry, in order and without deduplication; an entry whose first
summary carries no doi-typed identifier contributes nothing. -/
def doiIdsOfFirstSummary (w : Work) : List String :=
  match w.workSummary with
  | [] => []
  | s :: _ => (s.externalIds.filter fun e => e.idType = "doi").map (·.idValue)

/-! ## The identifier validator -/

/-- Consume four consecutive characters satisfying p (one X{4} regex
group). -/
def consumeGroup (p : Char → Bool) : List Char → Option (List Char)
  | a :: b :: c :: d :: rest =>
    if p a && p b && p c && p d then some rest else none
  | _ => none

/-- Consume one hyphen. -/
def consumeHyphen : List Char → Option (List Char)
  | c :: rest => if c = '-' then some rest else none
  | _ => none

/-- The character class [\dX]. -/
def isDigitOrX (c : Char) : Bool := c.isDigit || c = 'X'

/-- app.py: whether re.match matches the anchored ORCID pattern
\d{4}-\d{4}-\d{4}-[\dX]{4} against the whole input. Full-string matching is
modelled; the Python subtleties of a dollar anchor also matching just
before one trailing newline, and of \d covering non-ASCII digits, are not. -/
def orcidRegexMatch (s : String) : Bool :=
  match ((((((consumeGroup Char.isDigit s.data).bind
      consumeHyphen).bind (consumeGroup Char.isDigit)).bind
      consumeHyphen).bind (consumeGroup Char.isDigit)).bind
      consumeHyphen).bind (consumeGroup isDigitOrX) with
  | some [] => true
  | _ => false

/-- part_000: whether re.match matches the all-digit pattern
\d{4}-\d{4}-\d{4}-\d{4} (the app copy allows no checksum letter). -/
def orcidRegexMatchCopy (s : String) : Bool :=
  match ((((((consumeGroup Char.isDigit s.data).bind
      consumeHyphen).bind (consumeGroup Char.isDigit)).bind
      consumeHyphen).bind (consumeGroup Char.isDigit)).bind
      consumeHyphen).bind (consumeGroup Char.isDigit) with
  | some [] => true
  | _ => false

/-- part_000 validate_orcid_input: the disabled flag of the submit button
(true disables: non-string input or a format mismatch). -/
def validate_orcid_input (value : Option String) : Bool :=
  match value with
  | none => true
  | some v => !orcidRegexMatchCopy v

/-- The pattern the claim describes, written from the spec's words: four
hyphen-separated four-character groups, the first three groups all digits,
the fourth group digits with at most an optional trailing uppercase
checksum letter. Stated for comparison with orcidRegexMatch. -/
def claimedOrcidPattern (s : String) : Bool :=
  match ((((((consumeGroup Char.isDigit s.data).bind
      consumeHyphen).bind (consumeGroup Char.isDigit)).bind
      consumeHyphen).bind (consumeGroup Char.isDigit)).bind
      consumeHyphen).bind consumeLastGroup with
  | some [] => true
  | _ => false
where
  /-- dddd or dddX: digits with an optional trailing uppercase X. -/
  consumeLastGroup : List Char → Option (List Char)
    | a :: b :: c :: d :: rest =>
      if a.isDigit && b.isDigit && c.isDigit && (d.isDigit || d = 'X') then
        some rest
      else none
    | _ => none

/-! ## The record compiler (collect_publication_info) -/

/-- One flat publication record: the dict literal collect_publication_info
returns. Fields built by a string join are Lean strings; fields copied from
the payloads keep their JSON value (Python None is Json.null). -/
structure PublicationRecord where
  doi : String
  title : Json
  authorsName : String
  publishedYear : Json
  journal : String
  publisher : Json
  publicationType : Json
  subject : String
  funders : String
  citationCount : Json
  altmetricScore : Json
  altmetricReadCount : Json

/-- One step of the authors comprehension: the f-string for an author entry
carrying both a given and a family name, nothing for the others (the
membership tests and attribute accesses can raise, as in Python). -/
def authorNameEntry (author : Json) : Except PyErr (Option String) := do
  if (← pyContains "given" author) then
    if (← pyContains "family" author) then
      let g := (← dictGet author "given").getD .null
      let f := (← dictGet author "family").getD .null
      pure (some (pyStr g ++ " " ++ pyStr f))
    else pure none
  else pure none

/-- The authors_name list comprehension, in entry order. -/
def authorNames : List Json → Except PyErr (List String)
  | [] => .ok []
  | a :: rest => do
    let h ← authorNameEntry a
    let t ← authorNames rest
    pure (match h with | some n => n :: t | none => t)

/-- The funder generator: funder.get('name', '') for each funder entry
(str.join materializes the generator before type-checking elements, so all
attribute accesses happen first). -/
def funderNames : List Json → Except PyErr (List Json)
  | [] => .ok []
  | f :: rest => do
    let n := (← dictGet f "name").getD (.str "")
    let t ← funderNames rest
    pure (n :: t)

/-- app.py collect_publication_info as a pure merge of the two fetched
bags: the dict literal of lines 135-150, with the authors comprehension
evaluated first, every field expression in source order, and every Python
exception surfaced as the error case. -/
def collect_publication_info (doi : String) (metadata altmetric : Json) :
    Except PyErr PublicationRecord := do
  let authorsList := (← dictGet metadata "author").getD (.arr [])
  let al ← asList authorsList
  let names ← authorNames al
  let title ← pyIndex0 ((← dictGet metadata "title").getD (.arr [.str ""]))
  let authorsJoined := String.intercalate ", " names
  let published := (← dictGet metadata "published").getD (.obj [])
  let dateParts := (← dictGet published "date-parts").getD (.arr [.arr [.null]])
  let year ← pyIndex0 (← pyIndex0 dateParts)
  let journal ← pyJoinStrs ", " (← asList ((← dictGet metadata "container-title").getD (.arr [])))
  let publisher := (← dictGet metadata "publisher").getD (.str "")
  let ptype := (← dictGet metadata "type").getD (.str "")
  let subject ← pyJoinStrs ", " (← asList ((← dictGet metadata "subject").getD (.arr [])))
  let funders ← pyJoinStrs ", " (← funderNames (← asList ((← dictGet metadata "funder").getD (.arr []))))
  let citation := (← dictGet metadata "is-referenced-by-count").getD (.num 0)
  let score := (← dictGet altmetric "score").getD .null
  let readers := (← dictGet altmetric "readers_count").getD .null
  pure
    { doi := doi
      title := title
      authorsName := authorsJoined
      publishedYear := year
      journal := journal
      publisher := publisher
      publicationType := ptype
      subject := subject
      funders := funders
      citationCount := citation
      altmetricScore := score
      altmetricReadCount := readers }

/-! ## The memoized pipeline

The flask-caching store is threaded explicitly (one association list per
memoized function, keyed by the argument), and every underlying network
request performed is recorded in a trace, so that cache hits are visible as
an empty trace. The upstream services are an injected environment mapping
each argument to the outcome of its network call. -/

/-- The three upstream services: what the network call for a given argument
would return. -/
structure Env where
  orcidPerform : String → PerformResult
  crossrefPerform : String → PerformResult
  altmetricPerform : String → PerformResult

/-- The flask-caching filesystem store: one table per memoized function. -/
structure Caches where
  orcid : List (String × List String)
  crossref : List (String × Json)
  altmetric : List (String × Json)

def emptyCaches : Caches := ⟨[], [], []⟩

/-- One performed upstream network request. -/
inductive UpstreamCall where
  | orcid (id : String)
  | crossref (doi : String)
  | altmetric (doi : String)
  deriving DecidableEq, Repr

/-- fetch_orcid_publications under cache.memoize: a cache hit returns the
stored value without any network request; a miss performs the request, and
the returned value (also the [] fallback of a failed request) is stored;
an exception is not stored. -/
def fetch_orcid_publications_memo (id : String) (env : Env) (st : Caches) :
    Except PyErr (List String) × Caches × List UpstreamCall :=
  match lookupKey st.orcid id with
  | some v => (.ok v, st, [])
  | none =>
    match fetch_orcid_publications (env.orcidPerform id) with
    | .ok v => (.ok v, { st with orcid := (id, v) :: st.orcid }, [.orcid id])
    | .error e => (.error e, st, [.orcid id])

/-- fetch_crossref_metadata under cache.memoize (see
fetch_orcid_publications_memo). -/
def fetch_crossref_metadata_memo (doi : String) (env : Env) (st : Caches) :
    Except PyErr Json × Caches × List UpstreamCall :=
  match lookupKey st.crossref doi with
  | some v => (.ok v, st, [])
  | none =>
    match fetch_crossref_metadata (env.crossrefPerform doi) with
    | .ok v => (.ok v, { st with crossref := (doi, v) :: st.crossref }, [.crossref doi])
    | .error e => (.error e, st, [.crossref doi])

/-- fetch_altmetric_data under cache.memoize (see
fetch_orcid_publications_memo). -/
def fetch_altmetric_data_memo (doi : String) (env : Env) (st : Caches) :
    Except PyErr Json × Caches × List UpstreamCall :=
  match lookupKey st.altmetric doi with
  | some v => (.ok v, st, [])
  | none =>
    match fetch_altmetric_data (env.altmetricPerform doi) with
    | .ok v => (.ok v, { st with altmetric := (doi, v) :: st.altmetric }, [.altmetric doi])
    | .error e => (.error e, st, [.altmetric doi])

/-- collect_publication_info as called in the app: fetches both bags
through the memoized clients, then compiles the record. -/
def collect_publication_info_memo (doi : String) (env : Env) (st : Caches) :
    Except PyErr PublicationRecord × Caches × List UpstreamCall :=
  let x := fetch_crossref_metadata_memo doi env st
  match x.1 with
  | .error e => (.error e, x.2.1, x.2.2)
  | .ok metadata =>
    let y := fetch_altmetric_data_memo doi env x.2.1
    match y.1 with
    | .error e => (.error e, y.2.1, x.2.2 ++ y.2.2)
    | .ok alt => (collect_publication_info doi metadata alt, y.2.1, x.2.2 ++ y.2.2)

/-- The list comprehension [collect_publication_info(doi) for doi in dois]:
one record per document identifier, in discovery order. -/
def collectAll (dois : List String) (env : Env) (st : Caches) :
    Except PyErr (List PublicationRecord) × Caches × List UpstreamCall :=
  match dois with
  | [] => (.ok [], st, [])
  | d :: rest =>
    let x := collect_publication_info_memo d env st
    match x.1 with
    | .error e => (.error e, x.2.1, x.2.2)
    | .ok r1 =>
      let y := collectAll rest env x.2.1
      match y.1 with
      | .error e => (.error e, y.2.1, x.2.2 ++ y.2.2)
      | .ok recs => (.ok (r1 :: recs), y.2.1, x.2.2 ++ y.2.2)

/-- app.py build_publications_dataframe: discovery, then one compiled
record per discovered document identifier. -/
def build_publications_dataframe (id : String) (env : Env) (st : Caches) :
    Except PyErr (List PublicationRecord) × Caches × List UpstreamCall :=
  let x := fetch_orcid_publications_memo id env st
  match x.1 with
  | .error e => (.error e, x.2.1, x.2.2)
  | .ok dois =>
    let y := collectAll dois env x.2.1
    (y.1, y.2.1, x.2.2 ++ y.2.2)

/-- The user-visible outcome of the submit callback: the four cases of the
callback's return tuples (invalid input, no publications, table ready, or
the generic exception handler). -/
inductive UiOutcome where
  | invalidFormat
  | noPublications (storedOrcid : String)
  | publicationsReady (storedOrcid : String) (records : List PublicationRecord)
  | errorOccurred (e : PyErr)

/-- app.py validate_fetch_and_update_ui: the falsy-or-mismatch test comes
first and short-circuits the whole pipeline; otherwise the dataframe is
built inside try/except and dispatched on emptiness. -/
def validate_fetch_and_update_ui (orcidInput : Option String) (env : Env) (st : Caches) :
    UiOutcome × Caches × List UpstreamCall :=
  match orcidInput with
  | none => (.invalidFormat, st, [])
  | some id =>
    if id = "" || !orcidRegexMatch id then (.invalidFormat, st, [])
    else
      let x := build_publications_dataframe id env st
      match x.1 with
      | .error e => (.errorOccurred e, x.2.1, x.2.2)
      | .ok recs =>
        if recs.isEmpty then (.noPublications id, x.2.1, x.2.2)
        else (.publicationsReady id recs, x.2.1, x.2.2)

/-- The ORCID id the callback writes to the stored-orcid-id store (no_update
in the invalid and exception branches). -/
def storedOrcidOf : UiOutcome → Option String
  | .noPublications id => some id
  | .publicationsReady id _ => some id
  | _ => none

/-! ## Cache-free descriptions of the per-argument results -/

/-- What discovery computes for an identifier, independent of the cache. -/
def orcidOf (env : Env) (id : String) : Except PyErr (List String) :=
  fetch_orcid_publications (env.orcidPerform id)

/-- What the Crossref resolver computes for a DOI, independent of the cache. -/
def crossrefOf (env : Env) (doi : String) : Except PyErr Json :=
  fetch_crossref_metadata (env.crossrefPerform doi)

/-- What the Altmetric resolver computes for a DOI, independent of the cache. -/
def altmetricOf (env : Env) (doi : String) : Except PyErr Json :=
  fetch_altmetric_data (env.altmetricPerform doi)

/-- The record compiled for a DOI from the two resolvers' results,
independent of the cache. -/
def compileOf (env : Env) (doi : String) : Except PyErr PublicationRecord := do
  let m ← crossrefOf env doi
  let a ← altmetricOf env doi
  collect_publication_info doi m a

/-- One record per document identifier, in order, independent of the cache. -/
def compileAllOf (env : Env) : List String → Except PyErr (List PublicationRecord)
  | [] => .ok []
  | d :: rest => do
    let r ← compileOf env d
    let rs ← compileAllOf env rest
    pure (r :: rs)

/-! ## The exporter (download_publications_list) -/

/-- Minimal CSV quoting as pandas to_csv applies it: cells containing the
separator, a quote or a newline are quoted, with quotes doubled. -/
def csvCellOfString (s : String) : String :=
  if s.contains ',' || s.contains '"' || s.contains '\n' then
    "\"" ++ (s.replace "\"" "\"\"") ++ "\""
  else s

/-- How one stored JSON value is rendered in a CSV cell: a null field is an
empty cell. -/
def csvCellOfJson : Json → String
  | .null => ""
  | .bool true => "True"
  | .bool false => "False"
  | .num n => toString n
  | .str s => csvCellOfString s
  | .arr _ => ""
  | .obj _ => ""

/-- The cells of one record's row, in the fixed column order of the
collect_publication_info dict literal. -/
def csvCells (r : PublicationRecord) : List String :=
  [csvCellOfString r.doi, csvCellOfJson r.title, csvCellOfString r.authorsName,
   csvCellOfJson r.publishedYear, csvCellOfString r.journal, csvCellOfJson r.publisher,
   csvCellOfJson r.publicationType, csvCellOfString r.subject, csvCellOfString r.funders,
   csvCellOfJson r.citationCount, csvCellOfJson r.altmetricScore,
   csvCellOfJson r.altmetricReadCount]

/-- The fixed header line (to_csv with index=False). -/
def csvHeader : String :=
  "DOI,Title,Authors Name,Published Year,Journal,Publisher,Publication Type,Subject,Funders,Citation count,Altmetric Score,Altmetric Read Count"

def csvRow (r : PublicationRecord) : String :=
  String.intercalate "," (csvCells r)

/-- Each line followed by one newline, in order. -/
def csvConcat : List String → String
  | [] => ""
  | l :: rest => l ++ "\n" ++ csvConcat rest

/-- df.to_csv(index=False) on the stored records. -/
def publicationsCsv (recs : List PublicationRecord) : String :=
  csvConcat (csvHeader :: recs.map csvRow)

/-- re.sub sanitization of one filename character. -/
def sanitizeFilenameChar (c : Char) : Char :=
  if c.isAlphanum || c = '_' || c = '-' then c else '_'

/-- app.py download_publications_list: PreventUpdate (none) without a click
or stored data; otherwise the sanitized filename and the byte-stable CSV
payload. -/
def download_publications_list (nClicks : Option Nat)
    (storedData : Option (List PublicationRecord)) (orcidId : String) :
    Option (String × String) :=
  match nClicks, storedData with
  | some _, some recs =>
    some (String.mk (orcidId.data.map sanitizeFilenameChar) ++ "_publications_list.csv",
      publicationsCsv recs)
  | _, _ => none

/-! ## Specification-side predicates and concrete test inputs -/

/-- The record collect_publication_info compiles when both source bags are
empty: DOI populated, null only for the year and the two altmetric fields,
empty string for the other string-valued fields and 0 for the citation
count. -/
def emptyRecord (doi : String) : PublicationRecord :=
  ⟨doi, .str "", "", .null, "", .str "", .str "", "", "", .num 0, .null, .null⟩

/-- The shape the app.py validator actually accepts, spelled out: four
hyphen-separated four-character groups, the first three all digits, every
character of the fourth a digit or an uppercase X. -/
def OrcidShape (s : String) : Prop :=
  ∃ g1 g2 g3 g4 : String,
    s = g1 ++ "-" ++ g2 ++ "-" ++ g3 ++ "-" ++ g4 ∧
    g1.length = 4 ∧ g2.length = 4 ∧ g3.length = 4 ∧ g4.length = 4 ∧
    g1.data.all Char.isDigit = true ∧ g2.data.all Char.isDigit = true ∧
    g3.data.all Char.isDigit = true ∧ g4.data.all isDigitOrX = true

/-- A cache all of whose stored entries agree with what the environment
would produce for their key (true of the empty cache, and preserved by
every memoized call against the same environment). -/
def CoherentCaches (env : Env) (st : Caches) : Prop :=
  (∀ k v, lookupKey st.orcid k = some v → orcidOf env k = .ok v) ∧
  (∀ k v, lookupKey st.crossref k = some v → crossrefOf env k = .ok v) ∧
  (∀ k v, lookupKey st.altmetric k = some v → altmetricOf env k = .ok v)

/-- An environment in which every upstream network call fails. -/
def envFail : Env :=
  ⟨fun _ => .error "boom", fun _ => .error "boom", fun _ => .error "boom"⟩

/-- An environment whose discovery yields one DOI and whose resolvers
return bags with no extractable fields. -/
def envOk : Env :=
  ⟨fun _ => .ok (encodeWorks [⟨[⟨[⟨"doi", "10.1/a"⟩]⟩]⟩]),
   fun _ => .ok (.obj [("message", .obj [])]),
   fun _ => .ok (.obj [])⟩

/-- An environment whose discovery yields one DOI and whose Crossref
resolver succeeds with a payload carrying a zero-element title list. -/
def envBadTitle : Env :=
  ⟨fun _ => .ok (encodeWorks [⟨[⟨[⟨"doi", "10.1/a"⟩]⟩]⟩]),
   fun _ => .ok (.obj [("message", .obj [("title", .arr [])])]),
   fun _ => .ok (.obj [])⟩

/-- A works payload with a duplicated DOI, an extra non-doi identifier and
a work entry carrying no doi-typed identifier. -/
def wsEx : List Work :=
  [⟨[⟨[⟨"doi", "10.1/a"⟩, ⟨"issn", "1234"⟩, ⟨"doi", "10.1/a"⟩]⟩]⟩,
   ⟨[⟨[⟨"pmid", "99"⟩]⟩]⟩,
   ⟨[⟨[⟨"doi", "10.2/b"⟩]⟩]⟩]

/-- A works payload whose single work group carries one DOI in its first
work summary and a different DOI only in its second work summary. -/
def wsHidden : List Work :=
  [⟨[⟨[⟨"doi", "10.1/a"⟩]⟩, ⟨[⟨"doi", "10.9/hidden"⟩]⟩]⟩]

/-! ## Helper lemmas -/

theorem consumeGroup_eq_some {p : Char → Bool} {l rest : List Char} :
    consumeGroup p l = some rest ↔
      ∃ a b c d, l = a :: b :: c :: d :: rest ∧
        p a = true ∧ p b = true ∧ p c = true ∧ p d = true := by
  constructor
  · intro h
    match l with
    | [] | [_] | [_, _] | [_, _, _] => simp [consumeGroup] at h
    | a :: b :: c :: d :: t =>
      simp only [consumeGroup] at h
      split at h
      · rename_i hcond
        simp only [Bool.and_eq_true] at hcond
        obtain ⟨⟨⟨ha, hb⟩, hc⟩, hd⟩ := hcond
        obtain rfl : t = rest := by injection h
        exact ⟨a, b, c, d, rfl, ha, hb, hc, hd⟩
      · exact absurd h (by simp)
  · rintro ⟨a, b, c, d, rfl, ha, hb, hc, hd⟩
    simp [consumeGroup, ha, hb, hc, hd]

theorem consumeHyphen_eq_some {l rest : List Char} :
    consumeHyphen l = some rest ↔ l = '-' :: rest := by
  constructor
  · intro h
    match l with
    | [] => simp [consumeHyphen] at h
    | c :: t =>
      simp only [consumeHyphen] at h
      split at h
      · rename_i hc
        obtain rfl : t = rest := by injection h
        simp [hc]
      · exact absurd h (by simp)
  · rintro rfl
    simp [consumeHyphen]

theorem exists_four {l : List Char} (h : l.length = 4) :
    ∃ a b c d, l = [a, b, c, d] := by
  match l with
  | [a, b, c, d] => exact ⟨a, b, c, d, rfl⟩
  | [] | [_] | [_, _] | [_, _, _] => simp at h
  | _ :: _ :: _ :: _ :: _ :: _ => simp at h

theorem orcid_regex_iff_shape (s : String) :
    orcidRegexMatch s = true ↔ OrcidShape s := by
  constructor
  · intro h
    unfold orcidRegexMatch at h
    split at h
    case _ heq =>
      simp only [Option.bind_eq_some] at heq
      obtain ⟨t6, ⟨t5, ⟨t4, ⟨t3, ⟨t2, ⟨t1, h1, h2⟩, h3⟩, h4⟩, h5⟩, h6⟩, h7⟩ := heq
      obtain ⟨a1, a2, a3, a4, hd1, p11, p12, p13, p14⟩ := consumeGroup_eq_some.mp h1
      obtain rfl := consumeHyphen_eq_some.mp h2
      obtain ⟨b1, b2, b3, b4, hd2, p21, p22, p23, p24⟩ := consumeGroup_eq_some.mp h3
      obtain rfl := consumeHyphen_eq_some.mp h4
      obtain ⟨c1, c2, c3, c4, hd3, p31, p32, p33, p34⟩ := consumeGroup_eq_some.mp h5
      obtain rfl := consumeHyphen_eq_some.mp h6
      obtain ⟨d1, d2, d3, d4, hd4, p41, p42, p43, p44⟩ := consumeGroup_eq_some.mp h7
      refine ⟨⟨[a1, a2, a3, a4]⟩, ⟨[b1, b2, b3, b4]⟩, ⟨[c1, c2, c3, c4]⟩, ⟨[d1, d2, d3, d4]⟩,
        ?_, rfl, rfl, rfl, rfl, ?_, ?_, ?_, ?_⟩
      · apply String.ext
        simp only [String.data_append]
        rw [hd1, hd2] at *
        simp_all
      · simp [p11, p12, p13, p14]
      · simp [p21, p22, p23, p24]
      · simp [p31, p32, p33, p34]
      · simp [p41, p42, p43, p44]
    case _ =>
      exact absurd h (by simp)
  · rintro ⟨g1, g2, g3, g4, rfl, h1, h2, h3, h4, ha1, ha2, ha3, ha4⟩
    obtain ⟨a1, a2, a3, a4, e1⟩ := exists_four (l := g1.data) h1
    obtain ⟨b1, b2, b3, b4, e2⟩ := exists_four (l := g2.data) h2
    obtain ⟨c1, c2, c3, c4, e3⟩ := exists_four (l := g3.data) h3
    obtain ⟨d1, d2, d3, d4, e4⟩ := exists_four (l := g4.data) h4
    rw [e1] at ha1; rw [e2] at ha2; rw [e3] at ha3; rw [e4] at ha4
    simp only [List.all_cons, List.all_nil, Bool.and_eq_true, Bool.and_true] at ha1 ha2 ha3 ha4
    obtain ⟨q11, q12, q13, q14⟩ := ha1
    obtain ⟨q21, q22, q23, q24⟩ := ha2
    obtain ⟨q31, q32, q33, q34⟩ := ha3
    obtain ⟨q41, q42, q43, q44⟩ := ha4
    unfold orcidRegexMatch
    simp only [String.data_append, e1, e2, e3, e4]
    simp [consumeGroup, consumeHyphen, q11, q12, q13, q14, q21, q22, q23, q24,
      q31, q32, q33, q34, q41, q42, q43, q44]

theorem coherent_empty (env : Env) : CoherentCaches env emptyCaches := by
  refine ⟨?_, ?_, ?_⟩ <;> intro k v h <;> simp [emptyCaches, lookupKey] at h

theorem crossref_memo_spec (doi : String) (env : Env) (st : Caches)
    (h : CoherentCaches env st) :
    (fetch_crossref_metadata_memo doi env st).1 = crossrefOf env doi ∧
    CoherentCaches env (fetch_crossref_metadata_memo doi env st).2.1 := by
  obtain ⟨ho, hc, ha⟩ := h
  rcases hl : lookupKey st.crossref doi with _ | v
  · rcases hb : fetch_crossref_metadata (env.crossrefPerform doi) with e | v
    · constructor
      · simp [fetch_crossref_metadata_memo, hl, hb, crossrefOf]
      · simp only [fetch_crossref_metadata_memo, hl, hb]
        exact ⟨ho, hc, ha⟩
    · constructor
      · simp [fetch_crossref_metadata_memo, hl, hb, crossrefOf]
      · simp only [fetch_crossref_metadata_memo, hl, hb]
        refine ⟨ho, ?_, ha⟩
        intro k v' hk
        rw [show lookupKey ((doi, v) :: st.crossref) k =
          if doi = k then some v else lookupKey st.crossref k from rfl] at hk
        by_cases hdk : doi = k
        · rw [if_pos hdk] at hk
          obtain rfl : v = v' := by injection hk
          subst hdk
          simp [crossrefOf, hb]
        · rw [if_neg hdk] at hk
          exact hc _ _ hk
  · constructor
    · have := (hc _ _ hl).symm
      simp [fetch_crossref_metadata_memo, hl, this]
    · simp only [fetch_crossref_metadata_memo, hl]
      exact ⟨ho, hc, ha⟩

theorem altmetric_memo_spec (doi : String) (env : Env) (st : Caches)
    (h : CoherentCaches env st) :
    (fetch_altmetric_data_memo doi env st).1 = altmetricOf env doi ∧
    CoherentCaches env (fetch_altmetric_data_memo doi env st).2.1 := by
  obtain ⟨ho, hc, ha⟩ := h
  rcases hl : lookupKey st.altmetric doi with _ | v
  · rcases hb : fetch_altmetric_data (env.altmetricPerform doi) with e | v
    · constructor
      · simp [fetch_altmetric_data_memo, hl, hb, altmetricOf]
      · simp only [fetch_altmetric_data_memo, hl, hb]
        exact ⟨ho, hc, ha⟩
    · constructor
      · simp [fetch_altmetric_data_memo, hl, hb, altmetricOf]
      · simp only [fetch_altmetric_data_memo, hl, hb]
        refine ⟨ho, hc, ?_⟩
        intro k v' hk
        rw [show lookupKey ((doi, v) :: st.altmetric) k =
          if doi = k then some v else lookupKey st.altmetric k from rfl] at hk
        by_cases hdk : doi = k
        · rw [if_pos hdk] at hk
          obtain rfl : v = v' := by injection hk
          subst hdk
          simp [altmetricOf, hb]
        · rw [if_neg hdk] at hk
          exact ha _ _ hk
  · constructor
    · have := (ha _ _ hl).symm
      simp [fetch_altmetric_data_memo, hl, this]
    · simp only [fetch_altmetric_data_memo, hl]
      exact ⟨ho, hc, ha⟩

theorem orcid_memo_spec (id : String) (env : Env) (st : Caches)
    (h : CoherentCaches env st) :
    (fetch_orcid_publications_memo id env st).1 = orcidOf env id ∧
    CoherentCaches env (fetch_orcid_publications_memo id env st).2.1 := by
  obtain ⟨ho, hc, ha⟩ := h
  rcases hl : lookupKey st.orcid id with _ | v
  · rcases hb : fetch_orcid_publications (env.orcidPerform id) with e | v
    · constructor
      · simp [fetch_orcid_publications_memo, hl, hb, orcidOf]
      · simp only [fetch_orcid_publications_memo, hl, hb]
        exact ⟨ho, hc, ha⟩
    · constructor
      · simp [fetch_orcid_publications_memo, hl, hb, orcidOf]
      · simp only [fetch_orcid_publications_memo, hl, hb]
        refine ⟨?_, hc, ha⟩
        intro k v' hk
        rw [show lookupKey ((id, v) :: st.orcid) k =
          if id = k then some v else lookupKey st.orcid k from rfl] at hk
        by_cases hdk : id = k
        · rw [if_pos hdk] at hk
          obtain rfl : v = v' := by injection hk
          subst hdk
          simp [orcidOf, hb]
        · rw [if_neg hdk] at hk
          exact ho _ _ hk
  · constructor
    · have := (ho _ _ hl).symm
      simp [fetch_orcid_publications_memo, hl, this]
    · simp only [fetch_orcid_publications_memo, hl]
      exact ⟨ho, hc, ha⟩

theorem collect_memo_spec (doi : String) (env : Env) (st : Caches)
    (h : CoherentCaches env st) :
    (collect_publication_info_memo doi env st).1 = compileOf env doi ∧
    CoherentCaches env (collect_publication_info_memo doi env st).2.1 := by
  obtain ⟨hx1, hx2⟩ := crossref_memo_spec doi env st h
  rcases hm : (fetch_crossref_metadata_memo doi env st).1 with e | metadata
  · have hcm : crossrefOf env doi = Except.error e := hx1.symm.trans hm
    constructor
    · simp only [collect_publication_info_memo, hm]
      simp only [compileOf, hcm]
      rfl
    · simp only [collect_publication_info_memo, hm]
      exact hx2
  · have hcm : crossrefOf env doi = Except.ok metadata := hx1.symm.trans hm
    obtain ⟨hy1, hy2⟩ :=
      altmetric_memo_spec doi env (fetch_crossref_metadata_memo doi env st).2.1 hx2
    rcases hn : (fetch_altmetric_data_memo doi env
        (fetch_crossref_metadata_memo doi env st).2.1).1 with e | alt
    · have hca : altmetricOf env doi = Except.error e := hy1.symm.trans hn
      constructor
      · simp only [collect_publication_info_memo, hm, hn]
        simp only [compileOf, hcm, hca]
        rfl
      · simp only [collect_publication_info_memo, hm, hn]
        exact hy2
    · have hca : altmetricOf env doi = Except.ok alt := hy1.symm.trans hn
      constructor
      · simp only [collect_publication_info_memo, hm, hn]
        simp only [compileOf, hcm, hca]
        rfl
      · simp only [collect_publication_info_memo, hm, hn]
        exact hy2

theorem collectAll_spec (dois : List String) (env : Env) (st : Caches)
    (h : CoherentCaches env st) :
    (collectAll dois env st).1 = compileAllOf env dois ∧
    CoherentCaches env (collectAll dois env st).2.1 := by
  induction dois generalizing st with
  | nil => exact ⟨rfl, h⟩
  | cons d rest ih =>
    obtain ⟨hx1, hx2⟩ := collect_memo_spec d env st h
    rcases hm : (collect_publication_info_memo d env st).1 with e | r1
    · have hcd : compileOf env d = Except.error e := hx1.symm.trans hm
      constructor
      · simp only [collectAll, hm]
        simp only [compileAllOf, hcd]
        rfl
      · simp only [collectAll, hm]
        exact hx2
    · have hcd : compileOf env d = Except.ok r1 := hx1.symm.trans hm
      obtain ⟨hy1, hy2⟩ := ih (collect_publication_info_memo d env st).2.1 hx2
      rcases hn : (collectAll rest env (collect_publication_info_memo d env st).2.1).1
          with e | recs
      · have hrest : compileAllOf env rest = Except.error e := hy1.symm.trans hn
        constructor
        · simp only [collectAll, hm, hn]
          simp only [compileAllOf, hcd, hrest]
          rfl
        · simp only [collectAll, hm, hn]
          exact hy2
      · have hrest : compileAllOf env rest = Except.ok recs := hy1.symm.trans hn
        constructor
        · simp only [collectAll, hm, hn]
          simp only [compileAllOf, hcd, hrest]
          rfl
        · simp only [collectAll, hm, hn]
          exact hy2

theorem build_spec (id : String) (env : Env) (st : Caches)
    (h : CoherentCaches env st) :
    (build_publications_dataframe id env st).1 =
      (orcidOf env id).bind (compileAllOf env) := by
  obtain ⟨hx1, hx2⟩ := orcid_memo_spec id env st h
  rcases hm : (fetch_orcid_publications_memo id env st).1 with e | dois
  · have hcm : orcidOf env id = Except.error e := hx1.symm.trans hm
    simp only [build_publications_dataframe, hm]
    rw [hcm]
    rfl
  · have hcm : orcidOf env id = Except.ok dois := hx1.symm.trans hm
    obtain ⟨hy1, _⟩ :=
      collectAll_spec dois env (fetch_orcid_publications_memo id env st).2.1 hx2
    simp only [build_publications_dataframe, hm]
    rw [hcm]
    exact hy1

theorem compileAllOf_ok_nth (env : Env) (dois : List String)
    (recs : List PublicationRecord) (h : compileAllOf env dois = .ok recs) :
    recs.length = dois.length ∧
    ∀ i (h1 : i < recs.length) (h2 : i < dois.length),
      compileOf env (dois.get ⟨i, h2⟩) = .ok (recs.get ⟨i, h1⟩) := by
  induction dois generalizing recs with
  | nil =>
    simp only [compileAllOf] at h
    obtain rfl : ([] : List PublicationRecord) = recs := by injection h
    exact ⟨rfl, fun i h1 h2 => absurd h1 (by simp)⟩
  | cons d rest ih =>
    simp only [compileAllOf] at h
    rcases hm : compileOf env d with e | r1
    · rw [hm] at h
      have h2 : (Except.error e : Except PyErr (List PublicationRecord)) =
        Except.ok recs := h
      exact absurd h2 (by simp)
    · rw [hm] at h
      rcases hn : compileAllOf env rest with e | rs
      · simp only [hn] at h
        have h2 : (Except.error e : Except PyErr (List PublicationRecord)) =
          Except.ok recs := h
        exact absurd h2 (by simp)
      · simp only [hn] at h
        have h2 : Except.ok (r1 :: rs) = Except.ok recs := h
        obtain rfl : r1 :: rs = recs := by injection h2
        obtain ⟨hlen, hnth⟩ := ih rs hn
        refine ⟨by simp [hlen], ?_⟩
        intro i h1 h2
        cases i with
        | zero => simpa using hm
        | succ j =>
          have := hnth j (by simpa using h1) (by simpa using h2)
          simpa using this

theorem extractEidValues_encode (eids : List ExternalId) :
    extractEidValues (eids.map encodeExternalId) =
      .ok ((eids.filter fun e => e.idType = "doi").map (·.idValue)) := by
  induction eids with
  | nil => rfl
  | cons e rest ih =>
    have hstep : extractEidValues (encodeExternalId e :: rest.map encodeExternalId) =
        if jsonEqStr (.str e.idType) "doi" = true then
          (extractEidValues (rest.map encodeExternalId)).bind
            fun others => pure (e.idValue :: others)
        else extractEidValues (rest.map encodeExternalId) := rfl
    simp only [List.map_cons, hstep]
    by_cases hd : e.idType = "doi"
    · have hc : jsonEqStr (.str e.idType) "doi" = true := by simp [jsonEqStr, hd]
      rw [if_pos hc, ih]
      have hred : (Except.ok ((rest.filter fun e => e.idType = "doi").map (·.idValue)) :
          Except PyErr (List String)).bind
            (fun others => pure (e.idValue :: others)) =
          Except.ok (e.idValue :: (rest.filter fun e => e.idType = "doi").map (·.idValue)) := rfl
      rw [hred]
      simp [List.filter_cons, hd]
    · have hc : jsonEqStr (.str e.idType) "doi" = false := by simp [jsonEqStr, hd]
      rw [if_neg (by simp [hc]), ih]
      simp [List.filter_cons, hd]

theorem workDois_encode (w : Work) (h : w.workSummary ≠ []) :
    workDois (encodeWork w) = .ok (doiIdsOfFirstSummary w) := by
  obtain ⟨ws⟩ := w
  rcases ws with _ | ⟨s, rest⟩
  · exact absurd rfl h
  · have hstep : workDois (encodeWork ⟨s :: rest⟩) =
        extractEidValues (s.externalIds.map encodeExternalId) := rfl
    rw [hstep, extractEidValues_encode]
    rfl

theorem extractDoisFromWorks_encode (ws : List Work)
    (h : ∀ w ∈ ws, w.workSummary ≠ []) :
    extractDoisFromWorks (ws.map encodeWork) =
      .ok ((ws.map doiIdsOfFirstSummary).flatten) := by
  induction ws with
  | nil => rfl
  | cons w rest ih =>
    have hw : workDois (encodeWork w) = .ok (doiIdsOfFirstSummary w) :=
      workDois_encode w (h w (by simp))
    have hr := ih fun x hx => h x (by simp [hx])
    simp only [List.map_cons, extractDoisFromWorks]
    rw [hw]
    simp only [hr]
    rfl

theorem extractDois_encode (ws : List Work) (h : ∀ w ∈ ws, w.workSummary ≠ []) :
    extractDois (encodeWorks ws) = .ok ((ws.map doiIdsOfFirstSummary).flatten) := by
  have hstep : extractDois (encodeWorks ws) =
      extractDoisFromWorks (ws.map encodeWork) := rfl
  rw [hstep]
  exact extractDoisFromWorks_encode ws h

theorem storedOrcid_unchanged (s : String) (env : Env) (st : Caches) (j : String)
    (hj : storedOrcidOf (validate_fetch_and_update_ui (some s) env st).1 = some j) :
    j = s := by
  simp only [validate_fetch_and_update_ui] at hj
  split at hj
  · simp [storedOrcidOf] at hj
  · split at hj
    · simp [storedOrcidOf] at hj
    · split at hj
      · simp [storedOrcidOf] at hj
        exact hj.symm
      · simp [storedOrcidOf] at hj
        exact hj.symm

/-! ## Claims -/

/-- C1 counterexample: for the key ("crossref", "10.1/x") whose underlying
fetch fails, the first call stores the {} fallback in the cache, and a
second call with the same key performs no upstream request at all (empty
trace) — the failure outcome was effectively cached. -/
theorem failed_fetch_cached_cex :
    envFail.crossrefPerform "10.1/x" = .error "boom" ∧
    fetch_crossref_metadata_memo "10.1/x" envFail emptyCaches =
      (.ok (.obj []), ⟨[], [("10.1/x", .obj [])], []⟩, [.crossref "10.1/x"]) ∧
    fetch_crossref_metadata_memo "10.1/x" envFail ⟨[], [("10.1/x", .obj [])], []⟩ =
      (.ok (.obj []), ⟨[], [("10.1/x", .obj [])], []⟩, []) :=
  ⟨rfl, rfl, rfl⟩

/-- C1 (amended): a failed underlying fetch IS effectively cached, because
the memoized functions swallow the RequestException and return a fallback
({} or []) which cache.memoize stores like any other value: after a call
whose perform fails, a second call with the same key performs no upstream
request and returns the cached fallback, for both fetch_crossref_metadata
and fetch_orcid_publications. -/
theorem failed_fetch_fallback_is_cached (arg e : String) (env : Env) (st : Caches)
    (hcmiss : lookupKey st.crossref arg = none)
    (homiss : lookupKey st.orcid arg = none)
    (hcfail : env.crossrefPerform arg = .error e)
    (hofail : env.orcidPerform arg = .error e) :
    fetch_crossref_metadata_memo arg env st =
      (.ok (.obj []), { st with crossref := (arg, .obj []) :: st.crossref },
        [.crossref arg]) ∧
    fetch_crossref_metadata_memo arg env
        { st with crossref := (arg, .obj []) :: st.crossref } =
      (.ok (.obj []), { st with crossref := (arg, .obj []) :: st.crossref }, []) ∧
    fetch_orcid_publications_memo arg env st =
      (.ok [], { st with orcid := (arg, []) :: st.orcid }, [.orcid arg]) ∧
    fetch_orcid_publications_memo arg env
        { st with orcid := (arg, []) :: st.orcid } =
      (.ok [], { st with orcid := (arg, []) :: st.orcid }, []) := by
  refine ⟨?_, ?_, ?_, ?_⟩
  · simp [fetch_crossref_metadata_memo, hcmiss, fetch_crossref_metadata, hcfail]
  · simp [fetch_crossref_metadata_memo, lookupKey]
  · simp [fetch_orcid_publications_memo, homiss, fetch_orcid_publications, hofail]
  · simp [fetch_orcid_publications_memo, lookupKey]

/-- C1 witness: the amended theorem applied to the key "10.1/x" under the
all-failing environment, starting from the empty cache. -/
theorem failed_fetch_fallback_is_cached_witness :
    fetch_crossref_metadata_memo "10.1/x" envFail emptyCaches =
      (.ok (.obj []),
        { emptyCaches with crossref := ("10.1/x", .obj []) :: emptyCaches.crossref },
        [.crossref "10.1/x"]) ∧
    fetch_crossref_metadata_memo "10.1/x" envFail
        { emptyCaches with crossref := ("10.1/x", .obj []) :: emptyCaches.crossref } =
      (.ok (.obj []),
        { emptyCaches with crossref := ("10.1/x", .obj []) :: emptyCaches.crossref },
        []) ∧
    fetch_orcid_publications_memo "10.1/x" envFail emptyCaches =
      (.ok [], { emptyCaches with orcid := ("10.1/x", []) :: emptyCaches.orcid },
        [.orcid "10.1/x"]) ∧
    fetch_orcid_publications_memo "10.1/x" envFail
        { emptyCaches with orcid := ("10.1/x", []) :: emptyCaches.orcid } =
      (.ok [], { emptyCaches with orcid := ("10.1/x", []) :: emptyCaches.orcid }, []) :=
  failed_fetch_fallback_is_cached "10.1/x" "boom" envFail emptyCaches rfl rfl rfl rfl

/-- C2 counterexample: in app.py, a transport failure and a successful
fetch of an identifier with zero works both return the same value .ok [],
so the return value carries no distinguishable error outcome. -/
theorem discovery_failure_indistinguishable_cex :
    fetch_orcid_publications (.error "connection refused") = .ok [] ∧
    fetch_orcid_publications (.ok (encodeWorks [])) = .ok [] :=
  ⟨rfl, rfl⟩

/-- C2 (amended): app.py's Discovery returns the empty list on a
network/transport failure — the very value of a success with zero
documents — so its caller cannot tell the two apart; the part_000 variant
returns an additional error component that is set exactly on failure and
None on success, which does distinguish them. -/
theorem discovery_failure_returns_empty_list (e : String) (ws : List Work)
    (h : ∀ w ∈ ws, w.workSummary ≠ []) :
    fetch_orcid_publications (.error e) = .ok [] ∧
    fetch_orcid_publications (.ok (encodeWorks ws)) =
      .ok ((ws.map doiIdsOfFirstSummary).flatten) ∧
    fetch_orcid_publications_copy (.error e) = .ok ([], some e) ∧
    fetch_orcid_publications_copy (.ok (encodeWorks ws)) =
      .ok ((ws.map doiIdsOfFirstSummary).flatten, none) := by
  have hx := extractDois_encode ws h
  refine ⟨rfl, ?_, rfl, ?_⟩
  · simpa [fetch_orcid_publications] using hx
  · rw [show fetch_orcid_publications_copy (.ok (encodeWorks ws)) =
      (extractDois (encodeWorks ws)).map (fun dois => (dois, none)) from rfl, hx]
    rfl

/-- C2 witness: the amended theorem at a concrete failure message and a
concrete three-entry works payload. -/
theorem discovery_failure_returns_empty_list_witness :
    fetch_orcid_publications (.error "boom") = .ok [] ∧
    fetch_orcid_publications (.ok (encodeWorks wsEx)) =
      .ok ((wsEx.map doiIdsOfFirstSummary).flatten) ∧
    fetch_orcid_publications_copy (.error "boom") = .ok ([], some "boom") ∧
    fetch_orcid_publications_copy (.ok (encodeWorks wsEx)) =
      .ok ((wsEx.map doiIdsOfFirstSummary).flatten, none) :=
  discovery_failure_returns_empty_list "boom" wsEx (by decide)

/-- C3 counterexample: with both source bags empty the compiled record's
title is the empty string and its citation count is 0 — neither is null,
contrary to the claim that every content field is null. -/
theorem empty_bags_record_not_all_null_cex :
    (collect_publication_info "10.1/x" (.obj []) (.obj [])).map
      PublicationRecord.title = .ok (.str "") ∧
    Json.str "" ≠ Json.null ∧
    (collect_publication_info "10.1/x" (.obj []) (.obj [])).map
      PublicationRecord.citationCount = .ok (.num 0) ∧
    Json.num 0 ≠ Json.null :=
  ⟨rfl, nofun, rfl, nofun⟩

/-- C3 (amended): when both source bags are empty the compiled record
still exists with the document identifier populated, but only the year and
the two altmetric fields are null: title, publisher and type default to
the empty string, the joined list fields to the empty string, and the
citation count to 0. -/
theorem empty_bags_record_defaults (doi : String) :
    collect_publication_info doi (.obj []) (.obj []) = .ok (emptyRecord doi) :=
  rfl

/-- C4 counterexample: a title field that is present with zero elements
raises an IndexError during field extraction instead of being treated as
absent. -/
theorem empty_title_list_raises_cex :
    collect_publication_info "10.1/x" (.obj [("title", .arr [])]) (.obj []) =
      .error .indexError :=
  rfl

/-- C4 (amended): field extraction never raises on missing top-level
fields (each falls back to its dict-literal default: empty string, 0, or
null — not uniformly null), but a list-shaped field that is present with
zero elements is NOT treated as absent: a zero-element title list, a
zero-element date-parts list, and a date-parts list whose first element is
itself empty all raise an IndexError. -/
theorem field_extraction_defaults_and_raises (doi : String) :
    collect_publication_info doi (.obj []) (.obj []) = .ok (emptyRecord doi) ∧
    collect_publication_info doi (.obj [("title", .arr [])]) (.obj []) =
      .error .indexError ∧
    collect_publication_info doi
      (.obj [("published", .obj [("date-parts", .arr [])])]) (.obj []) =
      .error .indexError ∧
    collect_publication_info doi
      (.obj [("published", .obj [("date-parts", .arr [.arr []])])]) (.obj []) =
      .error .indexError :=
  ⟨rfl, rfl, rfl, rfl⟩

/-- C5 counterexample: the app.py validator accepts
"0000-0000-0000-X000", whose checksum letter is not trailing, while the
claimed pattern (digits with at most an optional trailing uppercase
checksum letter) rejects it. -/
theorem validator_accepts_nontrailing_checksum_cex :
    orcidRegexMatch "0000-0000-0000-X000" = true ∧
    claimedOrcidPattern "0000-0000-0000-X000" = false := by
  decide

/-- C5 (amended): the app.py validator accepts exactly the strings of four
hyphen-separated four-character groups whose first three groups are all
digits and whose fourth group consists of characters that are each a digit
or the uppercase letter X (the checksum letter may occupy any position,
any number of times); an accepted identifier is passed through the
pipeline and stored unchanged. -/
theorem validator_pattern_characterization (s : String) (env : Env) (st : Caches) :
    (orcidRegexMatch s = true ↔ OrcidShape s) ∧
    ∀ j, storedOrcidOf (validate_fetch_and_update_ui (some s) env st).1 = some j →
      j = s :=
  ⟨orcid_regex_iff_shape s, fun j hj => storedOrcid_unchanged s env st j hj⟩

/-- C5 witness: the amended characterization applied to the documented
example identifier, in both directions. -/
theorem validator_pattern_characterization_witness :
    orcidRegexMatch "0000-0002-1825-0097" = true ∧
    "0000-0002-1825-0097" = "0000-0002-1825-0097" :=
  ⟨(validator_pattern_characterization "0000-0002-1825-0097" envFail emptyCaches).1.mpr
      ⟨"0000", "0002", "1825", "0097", by decide⟩,
    (validator_pattern_characterization "0000-0002-1825-0097" envFail emptyCaches).2
      "0000-0002-1825-0097" rfl⟩

/-- C6 counterexample: discovery succeeds with one document identifier,
but because the Crossref resolver returns a payload with a zero-element
title list, record compilation raises and aggregation yields an error
rather than a one-record collection. -/
theorem aggregation_raises_on_malformed_metadata_cex :
    orcidOf envBadTitle "0000-0002-1825-0097" = .ok ["10.1/a"] ∧
    (build_publications_dataframe "0000-0002-1825-0097" envBadTitle emptyCaches).1 =
      .error .indexError :=
  ⟨rfl, rfl⟩

/-- C6 (amended): whenever aggregation returns a collection (no record
compilation raised), a discovery result of N document identifiers yields
exactly N records in discovery order, record i compiled from document
identifier i; resolution is sequential, so completion timing does not
exist as a source of reordering. -/
theorem aggregate_preserves_discovery_order (env : Env) (st : Caches) (id : String)
    (dois : List String) (recs : List PublicationRecord)
    (hco : CoherentCaches env st) (hdisc : orcidOf env id = .ok dois)
    (hbuild : (build_publications_dataframe id env st).1 = .ok recs) :
    recs.length = dois.length ∧
    ∀ i (h1 : i < recs.length) (h2 : i < dois.length),
      compileOf env (dois.get ⟨i, h2⟩) = .ok (recs.get ⟨i, h1⟩) := by
  have hb := build_spec id env st hco
  rw [hbuild, hdisc] at hb
  have hall : compileAllOf env dois = .ok recs := by
    have h2 : Except.ok recs = compileAllOf env dois := hb
    exact h2.symm
  exact compileAllOf_ok_nth env dois recs hall

/-- C6 witness: the amended theorem applied to a one-document run from the
empty cache, instantiated at index 0. -/
theorem aggregate_preserves_discovery_order_witness :
    compileOf envOk "10.1/a" = .ok (emptyRecord "10.1/a") :=
  (aggregate_preserves_discovery_order envOk emptyCaches "0000-0002-1825-0097"
      ["10.1/a"] [emptyRecord "10.1/a"] (coherent_empty envOk) rfl rfl).2
    0 (by decide) (by decide)

/-- C7: on a well-formed works payload (every work group carries at least
one work summary), discovery extracts exactly the doi-typed identifier
values of each entry's first work summary, in upstream entry order,
without deduplication; an entry carrying no doi-typed identifier
contributes nothing (its contribution is the empty list). -/
theorem discovery_extracts_ordered_doi_ids (ws : List Work)
    (h : ∀ w ∈ ws, w.workSummary ≠ []) :
    fetch_orcid_publications (.ok (encodeWorks ws)) =
      .ok ((ws.map doiIdsOfFirstSummary).flatten) := by
  have hx := extractDois_encode ws h
  simpa [fetch_orcid_publications] using hx

/-- C7 witness: on a payload with a duplicated DOI, a non-doi identifier
and an entry with no doi-typed identifier, discovery returns the two
copies of the duplicate and the later DOI, in order. -/
theorem discovery_extracts_ordered_doi_ids_witness :
    fetch_orcid_publications (.ok (encodeWorks wsEx)) =
      .ok ["10.1/a", "10.1/a", "10.2/b"] :=
  (discovery_extracts_ordered_doi_ids wsEx (by decide)).trans rfl

/-- C8: when validation rejects the input (missing input or a string the
regex does not match), the callback returns the invalid-format outcome
with the cache untouched and an empty upstream-call trace: discovery and
both metadata resolvers are never invoked. -/
theorem invalid_input_performs_no_upstream_calls (id : String) (env : Env)
    (st : Caches) (h : orcidRegexMatch id = false) :
    validate_fetch_and_update_ui (some id) env st = (.invalidFormat, st, []) ∧
    validate_fetch_and_update_ui none env st = (.invalidFormat, st, []) := by
  constructor
  · simp [validate_fetch_and_update_ui, h]
  · rfl

/-- C8 witness: the input "12345" is rejected and produces zero upstream
calls. -/
theorem invalid_input_performs_no_upstream_calls_witness :
    validate_fetch_and_update_ui (some "12345") envFail emptyCaches =
      (.invalidFormat, emptyCaches, []) :=
  (invalid_input_performs_no_upstream_calls "12345" envFail emptyCaches (by decide)).1

/-- C9: the export is a pure function of the stored records (equal inputs
give byte-identical output), its first line is always the fixed header in
the fixed column order, the download callback emits exactly this payload
with the sanitized filename, and a null year, altmetric score or altmetric
reader count is rendered as an empty cell. -/
theorem export_deterministic_fixed_header (recs recs' : List PublicationRecord)
    (r : PublicationRecord) :
    (recs = recs' → publicationsCsv recs = publicationsCsv recs') ∧
    publicationsCsv recs = csvHeader ++ "\n" ++ csvConcat (recs.map csvRow) ∧
    download_publications_list (some 1) (some recs) "0000-0002-1825-0097" =
      some ("0000-0002-1825-0097_publications_list.csv", publicationsCsv recs) ∧
    (r.altmetricScore = .null → (csvCells r)[10]? = some "") ∧
    (r.altmetricReadCount = .null → (csvCells r)[11]? = some "") ∧
    (r.publishedYear = .null → (csvCells r)[3]? = some "") := by
  refine ⟨fun h => h ▸ rfl, rfl, ?_, ?_, ?_, ?_⟩
  · rfl
  · intro h
    simp [csvCells, h, csvCellOfJson]
  · intro h
    simp [csvCells, h, csvCellOfJson]
  · intro h
    simp [csvCells, h, csvCellOfJson]

/-- C9 witness: the export theorem applied to the empty collection and to
a record whose altmetric score is null. -/
theorem export_deterministic_fixed_header_witness :
    publicationsCsv [] = publicationsCsv [] ∧
    (csvCells (emptyRecord "10.1/a"))[10]? = some "" :=
  ⟨(export_deterministic_fixed_header [] [] (emptyRecord "10.1/a")).1 rfl,
    (export_deterministic_fixed_header [] [] (emptyRecord "10.1/a")).2.2.2.1 rfl⟩

/-- C10: discovery reads only the first work summary of each work group: a
doi-typed identifier value that occurs in no group's first work summary
(in particular one that appears only in a later summary) never appears in
the discovery result. -/
theorem discovery_ignores_later_work_summaries (ws : List Work) (v : String)
    (l : List String) (h : ∀ w ∈ ws, w.workSummary ≠ [])
    (hfirst : ∀ w ∈ ws, v ∉ doiIdsOfFirstSummary w)
    (hres : fetch_orcid_publications (.ok (encodeWorks ws)) = .ok l) :
    v ∉ l := by
  have hx : fetch_orcid_publications (.ok (encodeWorks ws)) =
      .ok ((ws.map doiIdsOfFirstSummary).flatten) := by
    have := extractDois_encode ws h
    simpa [fetch_orcid_publications] using this
  rw [hx] at hres
  obtain rfl : (ws.map doiIdsOfFirstSummary).flatten = l := by injection hres
  intro hv
  rw [List.mem_flatten] at hv
  obtain ⟨grp, hg, hvg⟩ := hv
  rw [List.mem_map] at hg
  obtain ⟨w, hw, rfl⟩ := hg
  exact hfirst w hw hvg

/-- C10 witness: a DOI present only in the second work summary of its
group is absent from the discovery result. -/
theorem discovery_ignores_later_work_summaries_witness :
    fetch_orcid_publications (.ok (encodeWorks wsHidden)) = .ok ["10.1/a"] ∧
    "10.9/hidden" ∉ (["10.1/a"] : List String) :=
  ⟨rfl, discovery_ignores_later_work_summaries wsHidden "10.9/hidden" ["10.1/a"]
      (by decide) (by decide) rfl⟩

end PubFetch
